import Mathlib

/-!
Verification of the multi-level caching engine of the GitLab pipeline
status dashboard.

The embedding models:
* the tier documents persisted as JSON objects (association lists from
  string keys to timestamped entries),
* the backing file of each tier, which can be missing, unparsable
  (corrupt), or hold a parsed document,
* `MultiLevelCacheManager` (source file `multi-level-cache.ts`): the
  Structure (groups/projects), Branches and PipelineStatus tiers with
  their `get*`/`set*` operations,
* `CacheManager.getStatistics` / `setStatistics` (source file `cache.ts`):
  the Statistics tier,
* `calculateMedian` and the pure core of `getPipelineStatistics`
  (source file `statistics.ts`),
* the cache-relevant data flow of the `/api/branches/...` route handler
  (source file `api-routes-htmx.ts`), with the project-resolution and
  upstream GitLab fetch collapsed into an `Except` parameter.

Timestamps and durations are integers (milliseconds since epoch, as
`Date.now()` produces); payloads are type parameters.
-/

set_option autoImplicit false

namespace PipelineCache

/-- A tier document: a JSON object mapping string keys to values,
modelled as an association list with at most one binding per key
(lookup returns the first binding, insertion replaces in place). -/
def Doc (α : Type) : Type := List (String × α)

instance (α : Type) [DecidableEq α] : DecidableEq (Doc α) := by
  unfold Doc; infer_instance

instance (α : Type) : Inhabited (Doc α) := ⟨([] : List (String × α))⟩

/-- The empty document, `{}` in the source. -/
def Doc.empty {α : Type} : Doc α := []

/-- Property access `cache[key]`: the value bound to `k`, if any. -/
def Doc.lookup {α : Type} : Doc α → String → Option α
  | [], _ => none
  | (k', v') :: rest, k => if k' = k then some v' else Doc.lookup rest k

/-- Property assignment `cache[key] = v`: replace the binding of `k`
if present, otherwise append it. -/
def Doc.insert {α : Type} : Doc α → String → α → Doc α
  | [], k, v => [(k, v)]
  | (k', v') :: rest, k, v =>
      if k' = k then (k, v) :: rest else (k', v') :: Doc.insert rest k v

theorem Doc.lookup_insert_self {α : Type} (d : Doc α) (k : String) (v : α) :
    (d.insert k v).lookup k = some v := by
  induction d with
  | nil => simp [Doc.insert, Doc.lookup]
  | cons p rest ih =>
      by_cases h : p.1 = k
      · simp [Doc.insert, Doc.lookup, h]
      · simp [Doc.insert, Doc.lookup, h, ih]

theorem Doc.lookup_insert_ne {α : Type} (d : Doc α) (k k' : String) (v : α)
    (hk : k ≠ k') : (d.insert k v).lookup k' = d.lookup k' := by
  induction d with
  | nil => simp [Doc.insert, Doc.lookup, hk]
  | cons p rest ih =>
      by_cases h : p.1 = k
      · simp [Doc.insert, Doc.lookup, h, hk]
      · simp only [Doc.insert, h, if_false]
        by_cases h' : p.1 = k'
        · simp [Doc.lookup, h']
        · simp [Doc.lookup, h', ih]

/-- State of a tier's backing file: absent on disk, present but
unparsable (`JSON.parse` throws), or a parsed document. -/
inductive FileState (δ : Type) : Type
  | missing : FileState δ
  | corrupt : FileState δ
  | doc : δ → FileState δ
  deriving DecidableEq

/-- A file is intact when reading it does not throw: it is either
missing (handled explicitly by the source) or parses to a document. -/
def FileState.intactb {δ : Type} : FileState δ → Bool
  | .corrupt => false
  | _ => true

/-- Result shape of every tier read in `multi-level-cache.ts`:
`{ data: T | null, isStale: boolean, age?: number }`. -/
structure CacheResult (α : Type) : Type where
  data : Option α
  isStale : Bool
  age : Option Int
  deriving DecidableEq

/-- The `Absent` result `{ data: null, isStale: false }` (no `age`). -/
def CacheResult.absent {α : Type} : CacheResult α :=
  { data := none, isStale := false, age := none }

end PipelineCache

namespace PipelineCache

/-- A project record as stored in the groups/projects tier. -/
structure Project : Type where
  id : Int
  name : String
  path : String
  url : String
  deriving DecidableEq

/-- An entry of the groups/projects (Structure) tier document. -/
structure GroupsProjectsEntry : Type where
  timestamp : Int
  projects : List Project
  deriving DecidableEq

/-- A branch record as stored in the branches tier. -/
structure BranchInfo : Type where
  name : String
  commitTitle : Option String
  commitShortId : Option String
  deriving DecidableEq

/-- An entry of the branches tier document. -/
structure BranchesEntry : Type where
  timestamp : Int
  branches : List BranchInfo
  deriving DecidableEq

/-- An entry of the pipelines tier document: `{ timestamp, pipeline?,
includeJobs }`. The `pipeline` field is optional in the source
(`pipeline?: any`); a branch with no pipeline stores `undefined`,
modelled as `none`. -/
structure PipelinesEntry (π : Type) : Type where
  timestamp : Int
  pipeline : Option π
  includeJobs : Bool
  deriving DecidableEq

/-- Tier TTLs in milliseconds, as held in `this.ttl` after the
constructor converted the configured seconds. -/
structure TTLms : Type where
  groupsProjects : Int
  branches : Int
  pipelines : Int
  deriving DecidableEq

/-- Optional TTL configuration in seconds (`CacheTTL` in `types.ts`). -/
structure CacheTTL : Type where
  groupsProjects : Option Int
  branches : Option Int
  pipelines : Option Int
  deriving DecidableEq

/-- The constructor's TTL computation: each configured value (seconds)
defaults and is converted to milliseconds. -/
def mkTTL (cacheTTL : Option CacheTTL) : TTLms :=
  { groupsProjects := (((cacheTTL.map (·.groupsProjects)).join).getD 1800) * 1000
    branches := (((cacheTTL.map (·.branches)).join).getD 300) * 1000
    pipelines := (((cacheTTL.map (·.pipelines)).join).getD 5) * 1000 }

/-- The three backing files of `MultiLevelCacheManager`:
`groups-projects.json`, `branches.json`, `pipelines.json`. -/
structure MLCacheState (π : Type) : Type where
  groupsProjectsFile : FileState (Doc GroupsProjectsEntry)
  branchesFile : FileState (Doc BranchesEntry)
  pipelinesFile : FileState (Doc (PipelinesEntry π))

/-- Composite key of the pipelines tier: `` `${projectPath}:${branchName}` ``. -/
def pipelineKey (projectPath branchName : String) : String :=
  projectPath ++ ":" ++ branchName

/-- `MultiLevelCacheManager.getGroupsProjects`: missing file, parse
failure and missing entry all yield `Absent`; otherwise the entry's
projects are returned with `age = now - timestamp` and
`isStale = age > ttl`. -/
def getGroupsProjects {π : Type} (s : MLCacheState π) (ttl : TTLms)
    (now : Int) (serverName : String) : CacheResult (List Project) :=
  match s.groupsProjectsFile with
  | .missing => CacheResult.absent
  | .corrupt => CacheResult.absent
  | .doc d =>
      match d.lookup serverName with
      | none => CacheResult.absent
      | some e =>
          let age := now - e.timestamp
          { data := some e.projects
            isStale := decide (age > ttl.groupsProjects)
            age := some age }

/-- `MultiLevelCacheManager.setGroupsProjects`: start from `{}` or the
parsed existing document, bind the key to `{ timestamp: now, projects }`
and write the whole document back. If the existing file fails to parse
the exception is caught and nothing is written. -/
def setGroupsProjects {π : Type} (s : MLCacheState π) (now : Int)
    (serverName : String) (projects : List Project) : MLCacheState π :=
  match s.groupsProjectsFile with
  | .corrupt => s
  | .missing =>
      { s with groupsProjectsFile :=
          FileState.doc (Doc.empty.insert serverName ⟨now, projects⟩) }
  | .doc d =>
      { s with groupsProjectsFile :=
          FileState.doc (d.insert serverName ⟨now, projects⟩) }

/-- `MultiLevelCacheManager.getBranches`, same shape as
`getGroupsProjects` with the branches file and TTL. -/
def getBranches {π : Type} (s : MLCacheState π) (ttl : TTLms)
    (now : Int) (projectPath : String) : CacheResult (List BranchInfo) :=
  match s.branchesFile with
  | .missing => CacheResult.absent
  | .corrupt => CacheResult.absent
  | .doc d =>
      match d.lookup projectPath with
      | none => CacheResult.absent
      | some e =>
          let age := now - e.timestamp
          { data := some e.branches
            isStale := decide (age > ttl.branches)
            age := some age }

/-- `MultiLevelCacheManager.setBranches`, same shape as
`setGroupsProjects` with the branches file. -/
def setBranches {π : Type} (s : MLCacheState π) (now : Int)
    (projectPath : String) (branches : List BranchInfo) : MLCacheState π :=
  match s.branchesFile with
  | .corrupt => s
  | .missing =>
      { s with branchesFile :=
          FileState.doc (Doc.empty.insert projectPath ⟨now, branches⟩) }
  | .doc d =>
      { s with branchesFile :=
          FileState.doc (d.insert projectPath ⟨now, branches⟩) }

/-- `MultiLevelCacheManager.getPipeline`: looks up
`` `${projectPath}:${branchName}` ``; an entry whose stored
`includeJobs` flag differs from the requested one reads as `Absent`
(`if (!entry || entry.includeJobs !== includeJobs)`); otherwise
`data = entry.pipeline || null` (the stored payload, `none` for a
branch cached with no pipeline), with age and staleness as in the
other tiers. -/
def getPipeline {π : Type} (s : MLCacheState π) (ttl : TTLms) (now : Int)
    (projectPath branchName : String) (includeJobs : Bool) :
    CacheResult π :=
  match s.pipelinesFile with
  | .missing => CacheResult.absent
  | .corrupt => CacheResult.absent
  | .doc d =>
      match d.lookup (pipelineKey projectPath branchName) with
      | none => CacheResult.absent
      | some e =>
          if e.includeJobs ≠ includeJobs then CacheResult.absent
          else
            let age := now - e.timestamp
            { data := e.pipeline
              isStale := decide (age > ttl.pipelines)
              age := some age }

/-- `MultiLevelCacheManager.setPipeline`: binds the single key
`` `${projectPath}:${branchName}` `` to
`{ timestamp: now, pipeline, includeJobs }`, overwriting whatever entry
(of either `includeJobs` shape) was stored for that branch. -/
def setPipeline {π : Type} (s : MLCacheState π) (now : Int)
    (projectPath branchName : String) (pipeline : Option π)
    (includeJobs : Bool) : MLCacheState π :=
  match s.pipelinesFile with
  | .corrupt => s
  | .missing =>
      { s with pipelinesFile :=
          FileState.doc (Doc.empty.insert (pipelineKey projectPath branchName)
            ⟨now, pipeline, includeJobs⟩) }
  | .doc d =>
      { s with pipelinesFile :=
          FileState.doc (d.insert (pipelineKey projectPath branchName)
            ⟨now, pipeline, includeJobs⟩) }

/-- The statistics record computed per `(projectId, branchName)` pair
(`PipelineStatistics` in `types.ts`). Durations are rationals so the
even-count median average is exact. -/
structure PipelineStatistics : Type where
  projectId : Int
  branchName : String
  estimatedDuration : Option ℚ
  sampleSize : Nat
  lastUpdated : String
  deriving DecidableEq

/-- The statistics cache document persisted to
`pipeline-statistics.json`: one global timestamp and a keyed map. -/
structure StatisticsDoc : Type where
  timestamp : Int
  statistics : Doc PipelineStatistics
  deriving DecidableEq

/-- `STATISTICS_CACHE_DURATION = 30 * 60 * 1000` ms in `cache.ts`. -/
def statisticsCacheDuration : Int := 30 * 60 * 1000

/-- Composite key of the statistics tier: `` `${projectId}:${branchName}` ``. -/
def statKey (projectId : Int) (branchName : String) : String :=
  toString projectId ++ ":" ++ branchName

/-- `CacheManager.getStatistics`: missing or unparsable file reads as
`null`; a parsed document whose global age exceeds
`STATISTICS_CACHE_DURATION` also reads as `null` (the entry, though
present on disk, is withheld); otherwise
`cached.statistics[key] || null`. -/
def getStatistics (file : FileState StatisticsDoc) (now : Int)
    (projectId : Int) (branchName : String) : Option PipelineStatistics :=
  match file with
  | .missing => none
  | .corrupt => none
  | .doc c =>
      if now - c.timestamp > statisticsCacheDuration then none
      else c.statistics.lookup (statKey projectId branchName)

/-- `CacheManager.setStatistics`: keep the existing document if it is
parsable and not expired, otherwise start fresh; bind the key and stamp
the global timestamp with `now`. A parse failure is caught and nothing
is written. -/
def setStatistics (file : FileState StatisticsDoc) (now : Int)
    (projectId : Int) (branchName : String) (stats : PipelineStatistics) :
    FileState StatisticsDoc :=
  match file with
  | .corrupt => file
  | .missing =>
      FileState.doc
        ⟨now, Doc.empty.insert (statKey projectId branchName) stats⟩
  | .doc existing =>
      let base :=
        if now - existing.timestamp ≤ statisticsCacheDuration then existing
        else ⟨now, Doc.empty⟩
      FileState.doc
        ⟨now, base.statistics.insert (statKey projectId branchName) stats⟩

/-- A recent pipeline as consumed by the estimator: only its `duration`
field (`number | null` in the source) is read. -/
structure PipelineSample : Type where
  duration : Option ℚ
  deriving DecidableEq

/-- `calculateMedian` from `statistics.ts`: `null` for an empty list;
otherwise sort ascending, take the middle element for an odd count, the
average of the two middle elements for an even count
(`middle = Math.floor(length / 2)`). -/
def calculateMedian (values : List ℚ) : Option ℚ :=
  if values.length = 0 then none
  else
    let sorted := List.insertionSort (· ≤ ·) values
    let middle := sorted.length / 2
    if sorted.length % 2 = 0 then
      some ((sorted.getD (middle - 1) 0 + sorted.getD middle 0) / 2)
    else
      some (sorted.getD middle 0)

/-- The duration extraction of `getPipelineStatistics`:
`recentPipelines.map(p => p.duration).filter(d => d !== null && d > 0)`,
written as one `filterMap`. -/
def extractDurations (recentPipelines : List PipelineSample) : List ℚ :=
  (recentPipelines.map (·.duration)).filterMap fun d =>
    match d with
    | some x => if 0 < x then some x else none
    | none => none

/-- The pure core of `getPipelineStatistics` from `statistics.ts`: the
upstream call `client.getRecentPipelines(...)` is the
`recentPipelines` argument and `new Date().toISOString()` is `nowISO`. -/
def getPipelineStatistics (projectId : Int) (branchName : String)
    (recentPipelines : List PipelineSample) (nowISO : String) :
    PipelineStatistics :=
  let durations := extractDurations recentPipelines
  { projectId := projectId
    branchName := branchName
    estimatedDuration := calculateMedian durations
    sampleSize := durations.length
    lastUpdated := nowISO }

/-- Samples the spec calls valid: duration present and greater than 0.
Modelled from the spec: "pre-filtered to exclude non-representative
states — e.g., canceled/skipped/zero-duration". -/
def keptSamples (recentPipelines : List PipelineSample) :
    List PipelineSample :=
  recentPipelines.filter fun s =>
    match s.duration with
    | some d => decide (0 < d)
    | none => false

/-- The HTML response of the `/api/branches/...` route handler, reduced
to its cache-relevant content: either a rendered pipeline (possibly
`none` for "no pipeline") or the rendered error state of the `catch`
block. -/
inductive HandlerResponse (π : Type) : Type
  | ok : Option π → HandlerResponse π
  | error : String → HandlerResponse π
  deriving DecidableEq

/-- Observable events of one `/api/branches/...` request, in the order
the handler's `await` chain produces them. -/
inductive HandlerEvent (π : Type) : Type
  | fetchStart : HandlerEvent π
  | fetchComplete : Option π → HandlerEvent π
  | cacheWrite : Option π → HandlerEvent π
  | respond : HandlerResponse π → HandlerEvent π
  deriving DecidableEq

/-- Discriminator for the respond event. -/
def HandlerEvent.isRespond {π : Type} : HandlerEvent π → Bool
  | .respond _ => true
  | _ => false

/-- Discriminator for the fetch-completion event. -/
def HandlerEvent.isFetchComplete {π : Type} : HandlerEvent π → Bool
  | .fetchComplete _ => true
  | _ => false

/-- Result of one `/api/branches/...` request: the response body, the
cache state after the request, and the ordered event trace. -/
structure HandlerOutcome (π : Type) : Type where
  response : HandlerResponse π
  state : MLCacheState π
  events : List (HandlerEvent π)

/-- The refetch condition of the route handler, line
`if (cacheResult.data === null || cacheResult.isStale)`. -/
def shouldFetch {π : Type} (r : CacheResult π) : Bool :=
  r.data.isNone || r.isStale

/-- Cache-relevant data flow of the `GET /api/branches/(.+)` handler in
`api-routes-htmx.ts`. The project resolution and the GitLab calls
(`getLatestPipeline` plus the optional `getPipelineJobs`) are collapsed
into `fetchResult`: `.ok fresh` is the final fetched payload (jobs
already attached when requested, `none` for a branch with no pipeline)
and `.error msg` is any exception thrown before `setPipeline` is
reached, which the `catch` block turns into an error response. The
template rendering is dropped; the response keeps only which pipeline
value (if any) is rendered. -/
def branchesHandler {π : Type} (s : MLCacheState π) (ttl : TTLms)
    (now : Int) (projectPath branchName : String) (includeJobs : Bool)
    (fetchResult : Except String (Option π)) : HandlerOutcome π :=
  let cacheResult := getPipeline s ttl now projectPath branchName includeJobs
  let pipeline :=
    match cacheResult.data, includeJobs with
    | none, false => (getPipeline s ttl now projectPath branchName true).data
    | p, _ => p
  if shouldFetch cacheResult then
    let isRefreshing := cacheResult.isStale && cacheResult.data.isSome
    match fetchResult with
    | .error msg =>
        { response := .error msg
          state := s
          events := [.fetchStart, .respond (.error msg)] }
    | .ok fresh =>
        let s' := setPipeline s now projectPath branchName fresh includeJobs
        let responseData := if isRefreshing then pipeline else fresh
        { response := .ok responseData
          state := s'
          events := [.fetchStart, .fetchComplete fresh, .cacheWrite fresh,
                     .respond (.ok responseData)] }
  else
    { response := .ok pipeline
      state := s
      events := [.respond (.ok pipeline)] }

theorem decide_zero_gt_eq_false {a : Int} (h : 0 ≤ a) :
    decide ((0 : Int) > a) = false :=
  decide_eq_false (by omega)

theorem setGroupsProjects_branchesFile {π : Type} (s : MLCacheState π)
    (t : Int) (k : String) (v : List Project) :
    (setGroupsProjects s t k v).branchesFile = s.branchesFile := by
  cases hs : s.groupsProjectsFile <;> simp [setGroupsProjects, hs]

theorem setGroupsProjects_pipelinesFile {π : Type} (s : MLCacheState π)
    (t : Int) (k : String) (v : List Project) :
    (setGroupsProjects s t k v).pipelinesFile = s.pipelinesFile := by
  cases hs : s.groupsProjectsFile <;> simp [setGroupsProjects, hs]

theorem setBranches_groupsProjectsFile {π : Type} (s : MLCacheState π)
    (t : Int) (k : String) (v : List BranchInfo) :
    (setBranches s t k v).groupsProjectsFile = s.groupsProjectsFile := by
  cases hs : s.branchesFile <;> simp [setBranches, hs]

theorem setBranches_pipelinesFile {π : Type} (s : MLCacheState π)
    (t : Int) (k : String) (v : List BranchInfo) :
    (setBranches s t k v).pipelinesFile = s.pipelinesFile := by
  cases hs : s.branchesFile <;> simp [setBranches, hs]

theorem setPipeline_groupsProjectsFile {π : Type} (s : MLCacheState π)
    (t : Int) (pp bn : String) (v : Option π) (j : Bool) :
    (setPipeline s t pp bn v j).groupsProjectsFile = s.groupsProjectsFile := by
  cases hs : s.pipelinesFile <;> simp [setPipeline, hs]

theorem setPipeline_branchesFile {π : Type} (s : MLCacheState π)
    (t : Int) (pp bn : String) (v : Option π) (j : Bool) :
    (setPipeline s t pp bn v j).branchesFile = s.branchesFile := by
  cases hs : s.pipelinesFile <;> simp [setPipeline, hs]

theorem getGroupsProjects_ext {π : Type} (s₁ s₂ : MLCacheState π)
    (ttl : TTLms) (now : Int) (k : String)
    (h : s₁.groupsProjectsFile = s₂.groupsProjectsFile) :
    getGroupsProjects s₁ ttl now k = getGroupsProjects s₂ ttl now k := by
  unfold getGroupsProjects; rw [h]

theorem getBranches_ext {π : Type} (s₁ s₂ : MLCacheState π)
    (ttl : TTLms) (now : Int) (k : String)
    (h : s₁.branchesFile = s₂.branchesFile) :
    getBranches s₁ ttl now k = getBranches s₂ ttl now k := by
  unfold getBranches; rw [h]

theorem getPipeline_ext {π : Type} (s₁ s₂ : MLCacheState π)
    (ttl : TTLms) (now : Int) (pp bn : String) (j : Bool)
    (h : s₁.pipelinesFile = s₂.pipelinesFile) :
    getPipeline s₁ ttl now pp bn j = getPipeline s₂ ttl now pp bn j := by
  unfold getPipeline; rw [h]

theorem setBranches_intact {π : Type} (s : MLCacheState π)
    (t : Int) (k : String) (v : List BranchInfo) :
    (setBranches s t k v).branchesFile.intactb = s.branchesFile.intactb := by
  cases hs : s.branchesFile <;> simp [setBranches, hs, FileState.intactb]

theorem setGroupsProjects_intact {π : Type} (s : MLCacheState π)
    (t : Int) (k : String) (v : List Project) :
    (setGroupsProjects s t k v).groupsProjectsFile.intactb
      = s.groupsProjectsFile.intactb := by
  cases hs : s.groupsProjectsFile <;>
    simp [setGroupsProjects, hs, FileState.intactb]

theorem setPipeline_intact {π : Type} (s : MLCacheState π)
    (t : Int) (pp bn : String) (v : Option π) (j : Bool) :
    (setPipeline s t pp bn v j).pipelinesFile.intactb
      = s.pipelinesFile.intactb := by
  cases hs : s.pipelinesFile <;> simp [setPipeline, hs, FileState.intactb]

theorem getGroupsProjects_set_self {π : Type} (s : MLCacheState π)
    (ttl : TTLms) (t now : Int) (k : String) (v : List Project)
    (h : s.groupsProjectsFile.intactb = true) :
    getGroupsProjects (setGroupsProjects s t k v) ttl now k =
      { data := some v
        isStale := decide (now - t > ttl.groupsProjects)
        age := some (now - t) } := by
  cases hs : s.groupsProjectsFile with
  | corrupt => rw [hs] at h; simp [FileState.intactb] at h
  | missing =>
      simp [setGroupsProjects, getGroupsProjects, hs, Doc.lookup_insert_self]
  | doc d =>
      simp [setGroupsProjects, getGroupsProjects, hs, Doc.lookup_insert_self]

theorem getBranches_set_self {π : Type} (s : MLCacheState π)
    (ttl : TTLms) (t now : Int) (k : String) (v : List BranchInfo)
    (h : s.branchesFile.intactb = true) :
    getBranches (setBranches s t k v) ttl now k =
      { data := some v
        isStale := decide (now - t > ttl.branches)
        age := some (now - t) } := by
  cases hs : s.branchesFile with
  | corrupt => rw [hs] at h; simp [FileState.intactb] at h
  | missing => simp [setBranches, getBranches, hs, Doc.lookup_insert_self]
  | doc d => simp [setBranches, getBranches, hs, Doc.lookup_insert_self]

theorem getBranches_set_ne {π : Type} (s : MLCacheState π)
    (ttl : TTLms) (t now : Int) (k k' : String) (v : List BranchInfo)
    (hk : k ≠ k') :
    getBranches (setBranches s t k v) ttl now k' =
      getBranches s ttl now k' := by
  cases hs : s.branchesFile with
  | corrupt => simp [setBranches, hs]
  | missing =>
      simp [setBranches, getBranches, hs, Doc.lookup_insert_ne _ _ _ _ hk,
        Doc.empty, Doc.lookup, hk]
  | doc d =>
      simp [setBranches, getBranches, hs, Doc.lookup_insert_ne _ _ _ _ hk]

theorem getPipeline_set_self {π : Type} (s : MLCacheState π)
    (ttl : TTLms) (t now : Int) (pp bn : String) (v : Option π) (j : Bool)
    (h : s.pipelinesFile.intactb = true) :
    getPipeline (setPipeline s t pp bn v j) ttl now pp bn j =
      { data := v
        isStale := decide (now - t > ttl.pipelines)
        age := some (now - t) } := by
  cases hs : s.pipelinesFile with
  | corrupt => rw [hs] at h; simp [FileState.intactb] at h
  | missing => simp [setPipeline, getPipeline, hs, Doc.lookup_insert_self]
  | doc d => simp [setPipeline, getPipeline, hs, Doc.lookup_insert_self]

theorem getPipeline_set_mismatch {π : Type} (s : MLCacheState π)
    (ttl : TTLms) (t now : Int) (pp bn : String) (v : Option π) (j j' : Bool)
    (hj : j ≠ j') (h : s.pipelinesFile.intactb = true) :
    getPipeline (setPipeline s t pp bn v j) ttl now pp bn j' =
      CacheResult.absent := by
  cases hs : s.pipelinesFile with
  | corrupt => rw [hs] at h; simp [FileState.intactb] at h
  | missing =>
      simp [setPipeline, getPipeline, hs, Doc.lookup_insert_self, hj]
  | doc d =>
      simp [setPipeline, getPipeline, hs, Doc.lookup_insert_self, hj]

theorem extractDurations_eq_keptSamples_map
    (recentPipelines : List PipelineSample) :
    extractDurations recentPipelines =
      (keptSamples recentPipelines).map (fun smp => smp.duration.getD 0) := by
  induction recentPipelines with
  | nil => simp [extractDurations, keptSamples]
  | cons smp rest ih =>
      cases hd : smp.duration with
      | none =>
          simpa [extractDurations, keptSamples, hd, List.filterMap_cons,
            List.filter_cons] using ih
      | some x =>
          by_cases hx : 0 < x
          · simpa [extractDurations, keptSamples, hd, hx,
              List.filterMap_cons, List.filter_cons] using ih
          · simpa [extractDurations, keptSamples, hd, hx,
              List.filterMap_cons, List.filter_cons] using ih

theorem calculateMedian_eq_none_iff (values : List ℚ) :
    calculateMedian values = none ↔ values = [] := by
  unfold calculateMedian
  by_cases h : values.length = 0
  · simp [h, List.length_eq_zero.mp h]
  · constructor
    · intro hc
      simp only [h, if_false] at hc
      split at hc <;> simp at hc
    · intro hc
      rw [hc] at h; simp at h

/-- Claim C8: tiers are fully isolated namespaces — writing an entry
under a key in one tier leaves every read of the other tiers
unchanged, including reads of the very same key string. -/
theorem C8_tier_isolation {π : Type} (s : MLCacheState π) (ttl : TTLms)
    (t now : Int) (k pp bn : String) (bs : List BranchInfo)
    (ps : List Project) (pl : Option π) (j : Bool) :
    getGroupsProjects (setBranches s t k bs) ttl now k
        = getGroupsProjects s ttl now k
  ∧ getPipeline (setBranches s t k bs) ttl now pp bn j
        = getPipeline s ttl now pp bn j
  ∧ getBranches (setGroupsProjects s t k ps) ttl now k
        = getBranches s ttl now k
  ∧ getPipeline (setGroupsProjects s t k ps) ttl now pp bn j
        = getPipeline s ttl now pp bn j
  ∧ getGroupsProjects (setPipeline s t pp bn pl j) ttl now k
        = getGroupsProjects s ttl now k
  ∧ getBranches (setPipeline s t pp bn pl j) ttl now k
        = getBranches s ttl now k :=
  ⟨getGroupsProjects_ext _ _ _ _ _ (setBranches_groupsProjectsFile s t k bs),
   getPipeline_ext _ _ _ _ _ _ _ (setBranches_pipelinesFile s t k bs),
   getBranches_ext _ _ _ _ _ (setGroupsProjects_branchesFile s t k ps),
   getPipeline_ext _ _ _ _ _ _ _ (setGroupsProjects_pipelinesFile s t k ps),
   getGroupsProjects_ext _ _ _ _ _
     (setPipeline_groupsProjectsFile s t pp bn pl j),
   getBranches_ext _ _ _ _ _ (setPipeline_branchesFile s t pp bn pl j)⟩

/-- Claim C2: for the Structure, Branches and PipelineStatus tiers a
read never throws — a missing backing file, an unparsable backing file
(which affects every key of that tier at once) and a missing entry all
read as the `Absent` result `{ data: null, isStale: false }` with no
age; the Statistics tier likewise reads as `null` in those
situations. -/
theorem C2_read_fail_open {π : Type} (s : MLCacheState π) (ttl : TTLms)
    (now pid : Int) (k pp bn : String) (j : Bool) :
    (s.groupsProjectsFile = FileState.missing →
        getGroupsProjects s ttl now k = CacheResult.absent)
  ∧ (s.groupsProjectsFile = FileState.corrupt →
        getGroupsProjects s ttl now k = CacheResult.absent)
  ∧ (∀ d : Doc GroupsProjectsEntry, s.groupsProjectsFile = FileState.doc d →
        d.lookup k = none →
        getGroupsProjects s ttl now k = CacheResult.absent)
  ∧ (s.branchesFile = FileState.missing →
        getBranches s ttl now k = CacheResult.absent)
  ∧ (s.branchesFile = FileState.corrupt →
        getBranches s ttl now k = CacheResult.absent)
  ∧ (∀ d : Doc BranchesEntry, s.branchesFile = FileState.doc d →
        d.lookup k = none → getBranches s ttl now k = CacheResult.absent)
  ∧ (s.pipelinesFile = FileState.missing →
        getPipeline s ttl now pp bn j = CacheResult.absent)
  ∧ (s.pipelinesFile = FileState.corrupt →
        getPipeline s ttl now pp bn j = CacheResult.absent)
  ∧ (∀ d : Doc (PipelinesEntry π), s.pipelinesFile = FileState.doc d →
        d.lookup (pipelineKey pp bn) = none →
        getPipeline s ttl now pp bn j = CacheResult.absent)
  ∧ getStatistics FileState.missing now pid bn = none
  ∧ getStatistics FileState.corrupt now pid bn = none
  ∧ (∀ c : StatisticsDoc, c.statistics.lookup (statKey pid bn) = none →
        getStatistics (FileState.doc c) now pid bn = none) := by
  refine ⟨?_, ?_, ?_, ?_, ?_, ?_, ?_, ?_, ?_, ?_, ?_, ?_⟩
  · intro h; simp [getGroupsProjects, h]
  · intro h; simp [getGroupsProjects, h]
  · intro d hd hl; simp [getGroupsProjects, hd, hl]
  · intro h; simp [getBranches, h]
  · intro h; simp [getBranches, h]
  · intro d hd hl; simp [getBranches, hd, hl]
  · intro h; simp [getPipeline, h]
  · intro h; simp [getPipeline, h]
  · intro d hd hl; simp [getPipeline, hd, hl]
  · simp [getStatistics]
  · simp [getStatistics]
  · intro c hl
    simp only [getStatistics]
    split <;> simp [hl]

/-- Witness for claim C2: every tier file unparsable, every key of the
Structure tier reads as `Absent`. -/
theorem C2_witness :
    getGroupsProjects
      (⟨FileState.corrupt, FileState.corrupt, FileState.corrupt⟩ :
        MLCacheState Nat) (mkTTL none) 5 "a" = CacheResult.absent :=
  (C2_read_fail_open
    (⟨FileState.corrupt, FileState.corrupt, FileState.corrupt⟩ :
      MLCacheState Nat) (mkTTL none) 5 0 "a" "p" "b" false).2.1 rfl

/-- Claim C3: in each tier a read at the same clock instant as a
preceding write returns the written value with `isStale = false` and
`age = 0`, and writing the same value twice in a row leaves a
subsequent read returning that value fresh (timestamp refreshed, value
unchanged). The backing file must be intact (missing or parsable, so
the write is not swallowed) and the TTLs nonnegative, as every
configuration of the constructor produces. -/
theorem C3_read_after_write {π : Type} (s : MLCacheState π) (ttl : TTLms)
    (t now : Int) (k pp bn : String) (ps : List Project)
    (bs : List BranchInfo) (pl : Option π) (j : Bool)
    (hg : s.groupsProjectsFile.intactb = true)
    (hb : s.branchesFile.intactb = true)
    (hp : s.pipelinesFile.intactb = true)
    (hg0 : 0 ≤ ttl.groupsProjects) (hb0 : 0 ≤ ttl.branches)
    (hp0 : 0 ≤ ttl.pipelines) :
    getGroupsProjects (setGroupsProjects s now k ps) ttl now k =
      { data := some ps, isStale := false, age := some 0 }
  ∧ getGroupsProjects
      (setGroupsProjects (setGroupsProjects s t k ps) now k ps) ttl now k =
      { data := some ps, isStale := false, age := some 0 }
  ∧ getBranches (setBranches s now k bs) ttl now k =
      { data := some bs, isStale := false, age := some 0 }
  ∧ getBranches (setBranches (setBranches s t k bs) now k bs) ttl now k =
      { data := some bs, isStale := false, age := some 0 }
  ∧ getPipeline (setPipeline s now pp bn pl j) ttl now pp bn j =
      { data := pl, isStale := false, age := some 0 }
  ∧ getPipeline
      (setPipeline (setPipeline s t pp bn pl j) now pp bn pl j)
      ttl now pp bn j =
      { data := pl, isStale := false, age := some 0 } := by
  have hg' : (setGroupsProjects s t k ps).groupsProjectsFile.intactb = true := by
    rw [setGroupsProjects_intact]; exact hg
  have hb' : (setBranches s t k bs).branchesFile.intactb = true := by
    rw [setBranches_intact]; exact hb
  have hp' : (setPipeline s t pp bn pl j).pipelinesFile.intactb = true := by
    rw [setPipeline_intact]; exact hp
  refine ⟨?_, ?_, ?_, ?_, ?_, ?_⟩
  · rw [getGroupsProjects_set_self s ttl now now k ps hg]
    simp [sub_self, decide_zero_gt_eq_false hg0]
  · rw [getGroupsProjects_set_self _ ttl now now k ps hg']
    simp [sub_self, decide_zero_gt_eq_false hg0]
  · rw [getBranches_set_self s ttl now now k bs hb]
    simp [sub_self, decide_zero_gt_eq_false hb0]
  · rw [getBranches_set_self _ ttl now now k bs hb']
    simp [sub_self, decide_zero_gt_eq_false hb0]
  · rw [getPipeline_set_self s ttl now now pp bn pl j hp]
    simp [sub_self, decide_zero_gt_eq_false hp0]
  · rw [getPipeline_set_self _ ttl now now pp bn pl j hp']
    simp [sub_self, decide_zero_gt_eq_false hp0]

/-- Witness for claim C3: writing pipeline payload `9` and reading it
back at the same instant yields the fresh value. -/
theorem C3_witness :
    getPipeline
      (setPipeline
        (⟨FileState.missing, FileState.missing, FileState.missing⟩ :
          MLCacheState Nat) 50 "p" "b" (some 9) true)
      (mkTTL none) 50 "p" "b" true =
      { data := some 9, isStale := false, age := some 0 } :=
  (C3_read_after_write
    (⟨FileState.missing, FileState.missing, FileState.missing⟩ :
      MLCacheState Nat) (mkTTL none) 7 50 "k" "p" "b" [] [] (some 9) true
    rfl rfl rfl (by decide) (by decide) (by decide)).2.2.2.2.1

/-- Claim C9: two write calls to different keys of the Branches tier
both survive. Each `setBranches` is a whole-document read-modify-write
performed with synchronous file I/O and no suspension point, so under
the source's single-threaded event-loop model two concurrent calls
execute in one of the two serial orders; both orders are covered, and
in both a subsequent read of each key returns the value written for
it (no lost update). -/
theorem C9_no_lost_update {π : Type} (s : MLCacheState π) (ttl : TTLms)
    (t1 t2 now : Int) (k1 k2 : String) (v1 v2 : List BranchInfo)
    (hk : k1 ≠ k2) (h : s.branchesFile.intactb = true) :
    ((getBranches (setBranches (setBranches s t1 k1 v1) t2 k2 v2)
          ttl now k1).data = some v1
  ∧ (getBranches (setBranches (setBranches s t1 k1 v1) t2 k2 v2)
          ttl now k2).data = some v2)
  ∧ ((getBranches (setBranches (setBranches s t1 k2 v2) t2 k1 v1)
          ttl now k1).data = some v1
  ∧ (getBranches (setBranches (setBranches s t1 k2 v2) t2 k1 v1)
          ttl now k2).data = some v2) := by
  have h1 : (setBranches s t1 k1 v1).branchesFile.intactb = true := by
    rw [setBranches_intact]; exact h
  have h2 : (setBranches s t1 k2 v2).branchesFile.intactb = true := by
    rw [setBranches_intact]; exact h
  refine ⟨⟨?_, ?_⟩, ?_, ?_⟩
  · rw [getBranches_set_ne _ ttl t2 now k2 k1 v2 (Ne.symm hk),
      getBranches_set_self s ttl t1 now k1 v1 h]
  · rw [getBranches_set_self _ ttl t2 now k2 v2 h1]
  · rw [getBranches_set_self _ ttl t2 now k1 v1 h2]
  · rw [getBranches_set_ne _ ttl t2 now k1 k2 v1 hk,
      getBranches_set_self s ttl t1 now k2 v2 h]

/-- Witness for claim C9: writes to keys `"a"` then `"b"` on an empty
store; the read of `"a"` still returns its value. -/
theorem C9_witness :
    (getBranches
      (setBranches
        (setBranches
          (⟨FileState.missing, FileState.missing, FileState.missing⟩ :
            MLCacheState Nat) 1 "a" [])
        2 "b" [⟨"m", none, none⟩])
      (mkTTL none) 3 "a").data = some [] :=
  ((C9_no_lost_update
    (⟨FileState.missing, FileState.missing, FileState.missing⟩ :
      MLCacheState Nat) (mkTTL none) 1 2 3 "a" "b" [] [⟨"m", none, none⟩]
    (by decide) rfl).1).1

/-- Claim C10: a branch cached with no pipeline (payload `undefined`)
reads back with `data = null`, exactly the `data` of an absent key; the
result differs from `Absent` only in carrying an age (and the computed
staleness flag), and the route handler's refetch condition
`data === null || isStale` holds on every such read, so the handler
performs the upstream fetch again. -/
theorem C10_no_pipeline_reads_null {π : Type} (s : MLCacheState π)
    (ttl : TTLms) (tW tR : Int) (pp bn : String) (j : Bool)
    (fr : Except String (Option π))
    (h : s.pipelinesFile.intactb = true) :
    (getPipeline (setPipeline s tW pp bn none j) ttl tR pp bn j).data = none
  ∧ (getPipeline (setPipeline s tW pp bn none j) ttl tR pp bn j).age
      = some (tR - tW)
  ∧ (CacheResult.absent : CacheResult π).data = none
  ∧ (CacheResult.absent : CacheResult π).age = none
  ∧ shouldFetch (getPipeline (setPipeline s tW pp bn none j) ttl tR pp bn j)
      = true
  ∧ (branchesHandler (setPipeline s tW pp bn none j) ttl tR pp bn j
      fr).events.head? = some HandlerEvent.fetchStart := by
  have hr := getPipeline_set_self s ttl tW tR pp bn none j h
  have hsf : shouldFetch
      (getPipeline (setPipeline s tW pp bn none j) ttl tR pp bn j) = true := by
    rw [hr]; rfl
  refine ⟨by rw [hr], by rw [hr], rfl, rfl, hsf, ?_⟩
  cases fr <;> simp [branchesHandler, hsf]

/-- Witness for claim C10: branch `"p"/"b"` cached with no pipeline at
time 0, read at time 1 returns `data = null`. -/
theorem C10_witness :
    (getPipeline
      (setPipeline
        (⟨FileState.missing, FileState.missing, FileState.missing⟩ :
          MLCacheState Nat) 0 "p" "b" none false)
      (mkTTL none) 1 "p" "b" false).data = none :=
  (C10_no_pipeline_reads_null
    (⟨FileState.missing, FileState.missing, FileState.missing⟩ :
      MLCacheState Nat) (mkTTL none) 0 1 "p" "b" false
    (Except.ok none) rfl).1

/-- Claim C7: when the upstream fetch performed on an Absent or Stale
pipeline read throws, the handler writes nothing to the PipelineStatus
tier — the cache state is left identical, so every later read returns
exactly what it returned before — and the error propagates as the
error response. -/
theorem C7_fetch_failure_leaves_cache {π : Type} (s : MLCacheState π)
    (ttl : TTLms) (now : Int) (pp bn : String) (j : Bool) (msg : String)
    (h : shouldFetch (getPipeline s ttl now pp bn j) = true) :
    (branchesHandler s ttl now pp bn j (Except.error msg)).response
        = HandlerResponse.error msg
  ∧ (branchesHandler s ttl now pp bn j (Except.error msg)).state = s
  ∧ ∀ (ttl' : TTLms) (now' : Int) (pp' bn' : String) (j' : Bool),
      getPipeline (branchesHandler s ttl now pp bn j (Except.error msg)).state
          ttl' now' pp' bn' j'
        = getPipeline s ttl' now' pp' bn' j' := by
  refine ⟨?_, ?_, ?_⟩
  · simp [branchesHandler, h]
  · simp [branchesHandler, h]
  · intro ttl' now' pp' bn' j'
    simp [branchesHandler, h]

/-- Witness for claim C7: a failing fetch on an absent key leaves the
empty cache state unchanged. -/
theorem C7_witness :
    (branchesHandler
      (⟨FileState.missing, FileState.missing, FileState.missing⟩ :
        MLCacheState Nat) (mkTTL none) 0 "p" "b" false
      (Except.error "boom")).state =
      ⟨FileState.missing, FileState.missing, FileState.missing⟩ :=
  (C7_fetch_failure_leaves_cache
    (⟨FileState.missing, FileState.missing, FileState.missing⟩ :
      MLCacheState Nat) (mkTTL none) 0 "p" "b" false "boom" rfl).2.1

/-- Counterexample to claim C6 as stated: on a stale read
(entry written at 0, read at 6000 against the 5000 ms default TTL) the
handler's event trace completes the upstream fetch and writes its
result to the tier strictly before the respond event, which is the
last event of the request — the response is not issued immediately
with the fetch proceeding asynchronously afterwards. The response does
carry the stale value `1`, not the fresh `2`. -/
theorem C6_counterexample :
    (branchesHandler
      (⟨FileState.missing, FileState.missing,
        FileState.doc [("p:b", ⟨0, some 1, false⟩)]⟩ : MLCacheState Nat)
      (mkTTL none) 6000 "p" "b" false
      (Except.ok (some 2))).response = HandlerResponse.ok (some 1)
  ∧ (branchesHandler
      (⟨FileState.missing, FileState.missing,
        FileState.doc [("p:b", ⟨0, some 1, false⟩)]⟩ : MLCacheState Nat)
      (mkTTL none) 6000 "p" "b" false
      (Except.ok (some 2))).events.findIdx HandlerEvent.isFetchComplete <
    (branchesHandler
      (⟨FileState.missing, FileState.missing,
        FileState.doc [("p:b", ⟨0, some 1, false⟩)]⟩ : MLCacheState Nat)
      (mkTTL none) 6000 "p" "b" false
      (Except.ok (some 2))).events.findIdx HandlerEvent.isRespond
  ∧ (branchesHandler
      (⟨FileState.missing, FileState.missing,
        FileState.doc [("p:b", ⟨0, some 1, false⟩)]⟩ : MLCacheState Nat)
      (mkTTL none) 6000 "p" "b" false
      (Except.ok (some 2))).events.getLast?
      = some (HandlerEvent.respond (HandlerResponse.ok (some 1)))
  ∧ (branchesHandler
      (⟨FileState.missing, FileState.missing,
        FileState.doc [("p:b", ⟨0, some 1, false⟩)]⟩ : MLCacheState Nat)
      (mkTTL none) 6000 "p" "b" false
      (Except.ok (some 2))).state.pipelinesFile
      = FileState.doc [("p:b", ⟨6000, some 2, false⟩)] := by decide

/-- Claim C6 as amended: when a PipelineStatus read returns non-null
data with `isStale = true` and the upstream fetch succeeds, the
response carries the stale cached value — not the freshly fetched
one — and the fetch result is written back into the tier; however the
handler awaits the fetch, so the trace is fetch, write, then respond,
rather than responding immediately while the fetch proceeds
asynchronously. -/
theorem C6_stale_value_served {π : Type} (s : MLCacheState π)
    (ttl : TTLms) (now : Int) (pp bn : String) (j : Bool) (v : π)
    (fresh : Option π)
    (hst : (getPipeline s ttl now pp bn j).isStale = true)
    (hd : (getPipeline s ttl now pp bn j).data = some v) :
    (branchesHandler s ttl now pp bn j (Except.ok fresh)).response
        = HandlerResponse.ok (some v)
  ∧ (branchesHandler s ttl now pp bn j (Except.ok fresh)).state
        = setPipeline s now pp bn fresh j
  ∧ (branchesHandler s ttl now pp bn j (Except.ok fresh)).events
        = [HandlerEvent.fetchStart, HandlerEvent.fetchComplete fresh,
           HandlerEvent.cacheWrite fresh,
           HandlerEvent.respond (HandlerResponse.ok (some v))] := by
  have hsf : shouldFetch (getPipeline s ttl now pp bn j) = true := by
    simp [shouldFetch, hst]
  cases j <;>
    exact ⟨by simp [branchesHandler, hsf, hst, hd],
           by simp [branchesHandler, hsf, hst, hd],
           by simp [branchesHandler, hsf, hst, hd]⟩

/-- Witness for claim C6 (amended): stale entry `1`, fresh fetch `2`;
the response serves `1`. -/
theorem C6_witness :
    (branchesHandler
      (⟨FileState.missing, FileState.missing,
        FileState.doc [("p:b", ⟨0, some 1, false⟩)]⟩ : MLCacheState Nat)
      (mkTTL none) 6000 "p" "b" false
      (Except.ok (some 2))).response = HandlerResponse.ok (some 1) :=
  (C6_stale_value_served
    (⟨FileState.missing, FileState.missing,
      FileState.doc [("p:b", ⟨0, some 1, false⟩)]⟩ : MLCacheState Nat)
    (mkTTL none) 6000 "p" "b" false 1 (some 2)
    (by decide) (by decide)).1

/-- Counterexample to claim C4 as stated: the PipelineStatus tier
stores a single entry per `projectPath:branchName` key, so writing the
"with jobs" shape destroys the previously written "without jobs"
entry: the without-jobs payload `1` is readable before the with-jobs
write and the without-jobs read returns `Absent` after it. -/
theorem C4_counterexample :
    (getPipeline
      (setPipeline
        (⟨FileState.missing, FileState.missing, FileState.missing⟩ :
          MLCacheState Nat) 0 "p" "b" (some 1) false)
      (mkTTL none) 0 "p" "b" false).data = some 1
  ∧ getPipeline
      (setPipeline
        (setPipeline
          (⟨FileState.missing, FileState.missing, FileState.missing⟩ :
            MLCacheState Nat) 0 "p" "b" (some 1) false)
        0 "p" "b" (some 2) true)
      (mkTTL none) 0 "p" "b" false = CacheResult.absent := by decide

/-- Claim C4 as amended: the PipelineStatus tier keeps at most one
entry per branch, tagged with the `includeJobs` flag of the last
write; a read whose requested flag differs from the stored one returns
`Absent` (so a read never returns the payload stored for the other
shape), and a write of one shape replaces the other shape's entry
rather than leaving it intact. -/
theorem C4_single_entry {π : Type} (s : MLCacheState π) (ttl : TTLms)
    (t now : Int) (pp bn : String) (j : Bool) (v : Option π)
    (h : s.pipelinesFile.intactb = true) :
    (∀ (d : Doc (PipelinesEntry π)) (e : PipelinesEntry π),
        s.pipelinesFile = FileState.doc d →
        d.lookup (pipelineKey pp bn) = some e → e.includeJobs ≠ j →
        getPipeline s ttl now pp bn j = CacheResult.absent)
  ∧ getPipeline (setPipeline s t pp bn v j) ttl now pp bn (!j)
      = CacheResult.absent
  ∧ (getPipeline (setPipeline s t pp bn v j) ttl now pp bn j).data = v := by
  refine ⟨?_, ?_, ?_⟩
  · intro d e hd hl hne
    simp [getPipeline, hd, hl, hne]
  · exact getPipeline_set_mismatch s ttl t now pp bn v j (!j)
      (by cases j <;> decide) h
  · rw [getPipeline_set_self s ttl t now pp bn v j h]

/-- Witness for claim C4 (amended): after a without-jobs write the
with-jobs read returns `Absent`. -/
theorem C4_witness :
    getPipeline
      (setPipeline
        (⟨FileState.missing, FileState.missing, FileState.missing⟩ :
          MLCacheState Nat) 0 "p" "b" (some 1) false)
      (mkTTL none) 0 "p" "b" true = CacheResult.absent :=
  (C4_single_entry
    (⟨FileState.missing, FileState.missing, FileState.missing⟩ :
      MLCacheState Nat) (mkTTL none) 0 0 "p" "b" false (some 1) rfl).2.1

/-- Counterexample to claim C1 as stated: in the Statistics tier an
entry whose age exceeds the 30-minute TTL is withheld —
`getStatistics` returns `null` although the entry is present in the
stored document. -/
theorem C1_counterexample :
    getStatistics
      (FileState.doc
        ⟨0, Doc.empty.insert "7:main" ⟨7, "main", some 300, 5, "t"⟩⟩)
      1800001 7 "main" = none
  ∧ (Doc.empty.insert "7:main"
      (⟨7, "main", some 300, 5, "t"⟩ : PipelineStatistics)).lookup
      (statKey 7 "main") = some ⟨7, "main", some 300, 5, "t"⟩
  ∧ (1800001 : Int) - 0 > statisticsCacheDuration := by decide

/-- Claim C1 as amended: in the Structure, Branches and PipelineStatus
tiers an entry whose age exceeds the tier TTL is returned in full with
`isStale = true` — expiry never withholds the value; the Statistics
tier, by contrast, returns `null` for every key once the stored
document's age exceeds its TTL. -/
theorem C1_stale_is_advisory {π : Type} (s : MLCacheState π)
    (ttl : TTLms) (now pid : Int) (k pp bn : String) (j : Bool) :
    (∀ (d : Doc GroupsProjectsEntry) (e : GroupsProjectsEntry),
        s.groupsProjectsFile = FileState.doc d → d.lookup k = some e →
        now - e.timestamp > ttl.groupsProjects →
        getGroupsProjects s ttl now k =
          { data := some e.projects, isStale := true,
            age := some (now - e.timestamp) })
  ∧ (∀ (d : Doc BranchesEntry) (e : BranchesEntry),
        s.branchesFile = FileState.doc d → d.lookup k = some e →
        now - e.timestamp > ttl.branches →
        getBranches s ttl now k =
          { data := some e.branches, isStale := true,
            age := some (now - e.timestamp) })
  ∧ (∀ (d : Doc (PipelinesEntry π)) (e : PipelinesEntry π),
        s.pipelinesFile = FileState.doc d →
        d.lookup (pipelineKey pp bn) = some e → e.includeJobs = j →
        now - e.timestamp > ttl.pipelines →
        getPipeline s ttl now pp bn j =
          { data := e.pipeline, isStale := true,
            age := some (now - e.timestamp) })
  ∧ (∀ c : StatisticsDoc, now - c.timestamp > statisticsCacheDuration →
        getStatistics (FileState.doc c) now pid bn = none) := by
  refine ⟨?_, ?_, ?_, ?_⟩
  · intro d e hd hl hage
    simp [getGroupsProjects, hd, hl, decide_eq_true hage]
  · intro d e hd hl hage
    simp [getBranches, hd, hl, decide_eq_true hage]
  · intro d e hd hl hj hage
    simp [getPipeline, hd, hl, hj, decide_eq_true hage]
  · intro c hage
    simp [getStatistics, if_pos hage]

/-- Witness for claim C1 (amended): a pipeline entry written at 0 read
at 6000 against the 5000 ms default TTL comes back stale but with its
payload intact. -/
theorem C1_witness :
    getPipeline
      (⟨FileState.missing, FileState.missing,
        FileState.doc [("p:b", ⟨0, some 1, false⟩)]⟩ : MLCacheState Nat)
      (mkTTL none) 6000 "p" "b" false =
      { data := some 1, isStale := true, age := some (6000 - 0) } :=
  (C1_stale_is_advisory
    (⟨FileState.missing, FileState.missing,
      FileState.doc [("p:b", ⟨0, some 1, false⟩)]⟩ : MLCacheState Nat)
    (mkTTL none) 6000 7 "k" "p" "b" false).2.2.1
    [("p:b", ⟨0, some 1, false⟩)] ⟨0, some 1, false⟩ rfl (by decide) rfl
    (by decide)

theorem extractDurations_all_pos (recentPipelines : List PipelineSample) :
    (extractDurations recentPipelines).all (fun x => decide (0 < x))
      = true := by
  induction recentPipelines with
  | nil => rfl
  | cons smp rest ih =>
      cases hd : smp.duration with
      | none =>
          simpa [extractDurations, List.filterMap_cons, hd]
            using ih
      | some x =>
          by_cases hx : 0 < x
          · simp only [extractDurations] at ih
            simp only [extractDurations, List.map_cons,
              List.filterMap_cons, hd, if_pos hx, List.all_cons, ih,
              Bool.and_true]
            exact decide_eq_true hx
          · simpa [extractDurations, List.filterMap_cons, hd, hx]
              using ih

/-- Claim C5: the statistics estimator keeps exactly the samples whose
duration is present and greater than 0, reports `sampleSize` as their
count, estimates by `calculateMedian` over the kept durations (all of
which are positive), yields `null` exactly when no valid sample
remains, and matches the reference medians: `[5,5,5,5,50] ↦ 5`
(median, not mean), `[10,20] ↦ 15` (even-count average), `[] ↦ null`. -/
theorem C5_median_estimator (pid : Int) (bn lastUpd : String) :
    (∀ ps : List PipelineSample,
        (getPipelineStatistics pid bn ps lastUpd).sampleSize
          = (keptSamples ps).length)
  ∧ (∀ ps : List PipelineSample,
        (getPipelineStatistics pid bn ps lastUpd).estimatedDuration
          = calculateMedian
              ((keptSamples ps).map (fun smp => smp.duration.getD 0)))
  ∧ (∀ ps : List PipelineSample,
        ((getPipelineStatistics pid bn ps lastUpd).estimatedDuration = none
          ↔ keptSamples ps = []))
  ∧ (∀ ps : List PipelineSample,
        (extractDurations ps).all (fun x => decide (0 < x)) = true)
  ∧ calculateMedian [5, 5, 5, 5, 50] = some 5
  ∧ calculateMedian [10, 20] = some 15
  ∧ calculateMedian [] = none := by
  refine ⟨?_, ?_, ?_, extractDurations_all_pos, ?_, ?_, ?_⟩
  · intro ps
    simp [getPipelineStatistics, extractDurations_eq_keptSamples_map]
  · intro ps
    simp [getPipelineStatistics, extractDurations_eq_keptSamples_map]
  · intro ps
    simp only [getPipelineStatistics]
    rw [calculateMedian_eq_none_iff, extractDurations_eq_keptSamples_map]
    simp [List.map_eq_nil_iff]
  · norm_num [calculateMedian, List.insertionSort, List.orderedInsert,
      List.getD]
  · norm_num [calculateMedian, List.insertionSort, List.orderedInsert,
      List.getD]
  · norm_num [calculateMedian]

end PipelineCache
